import Mathlib

/-!
Shallow embedding of the nodejs-db-multitenancy library.

The embedding follows the TypeScript sources:
* src/unnamed/part_002 — `MultiTenantManager` and `ConnectionValidator`
* src/unnamed/part_003 — `ConnectorFactory`
* src/unnamed/part_000 — `MongoDBConnector`
* src/src/connectors/postgresql-connector.ts — `PostgreSQLConnector`
* src/src/types/index.ts — the data model

Driver-side I/O (mongoose / TypeORM connect attempts, pings, queries,
close calls) is external to the repository; each such awaited call is
modelled by an explicit oracle argument giving that call's outcome, and
the functions additionally report how many backend connect attempts they
performed, so that connection-counting properties can be stated.
Timestamps (`new Date()`) are modelled as `Int` milliseconds supplied as
explicit arguments, one per `Date` construction the code performs.
-/

namespace MultiTenancy

/-- The DatabaseType enum from src/src/types/index.ts.  At runtime the
enum is string-valued; `other s` represents any runtime string outside
the two declared members (reachable through unchecked casts), which the
manager's `switch` statements send to their `default` branch. -/
inductive DatabaseType where
  | mongodb
  | postgresql
  | other (s : String)
deriving DecidableEq, Repr

/-- The runtime string value of a DatabaseType (the enum is string-valued). -/
def DatabaseType.str : DatabaseType → String
  | .mongodb => "mongodb"
  | .postgresql => "postgresql"
  | .other s => s

/-- An opaque driver connection handle.  `hasDb` models whether the
mongoose connection object exposes a non-null `db` property;
`isInitialized` models the TypeORM `isInitialized` flag.  `id`
distinguishes distinct handles. -/
structure Handle where
  id : Nat
  hasDb : Bool
  isInitialized : Bool
deriving DecidableEq, Repr

/-- The ConnectionOptions interface: every field optional (`none` models
an absent property). -/
structure ConnectionOptions where
  maxConnections : Option Int
  connectionTimeout : Option Int
  idleTimeout : Option Int
  retryAttempts : Option Int
  retryDelay : Option Int
deriving DecidableEq, Repr

/-- An options object with no property present (the `{}` literal). -/
def ConnectionOptions.empty : ConnectionOptions := ⟨none, none, none, none, none⟩

/-- JS object-spread merge of two options objects: properties of `b`
override those of `a` (the semantics of the literal `{...a, ...b}`). -/
def ConnectionOptions.merge (a b : ConnectionOptions) : ConnectionOptions :=
  ⟨b.maxConnections <|> a.maxConnections,
   b.connectionTimeout <|> a.connectionTimeout,
   b.idleTimeout <|> a.idleTimeout,
   b.retryAttempts <|> a.retryAttempts,
   b.retryDelay <|> a.retryDelay⟩

/-- Spreading a possibly-absent options object (`{...o}` where `o` may be
`undefined`) yields the empty object when absent. -/
def ConnectionOptions.spread (o : Option ConnectionOptions) : ConnectionOptions :=
  o.getD ConnectionOptions.empty

/-- Log levels of the manager configuration. -/
inductive LogLevel where
  | debug
  | info
  | warn
  | error
deriving DecidableEq, Repr

/-- The MultiTenantConfig interface: every field optional. -/
structure MultiTenantConfig where
  defaultOptions : Option ConnectionOptions
  enableConnectionPooling : Option Bool
  enableLogging : Option Bool
  logLevel : Option LogLevel
deriving DecidableEq, Repr

/-- JS object-spread merge of two configs: properties of `b` override
those of `a` (the `{...a, ...b}` part of the constructor and
`updateConfig`; the `defaultOptions` property is subsequently
overwritten by both call sites and is merged here only positionally). -/
def MultiTenantConfig.spreadMerge (a b : MultiTenantConfig) : MultiTenantConfig :=
  ⟨b.defaultOptions <|> a.defaultOptions,
   b.enableConnectionPooling <|> a.enableConnectionPooling,
   b.enableLogging <|> a.enableLogging,
   b.logLevel <|> a.logLevel⟩

/-- The ssl field of PostgreSQLCredentials: a boolean or an object with
an optional `rejectUnauthorized` flag. -/
inductive PgSsl where
  | bool (b : Bool)
  | obj (rejectUnauthorized : Option Bool)
deriving DecidableEq, Repr

/-- Runtime shape of a credentials record.  TypeScript's
`MongoDBCredentials | PostgreSQLCredentials` is structural; the manager
casts between the two without checks, so a single record holding the
common fields plus each variant's optional extras models the runtime
value.  `options` is the `Record<string, any>` pass-through bag, spread
into a ConnectionOptions object by `createConnector`. -/
structure DatabaseCredentials where
  host : String
  port : Int
  username : String
  password : String
  database : String
  options : ConnectionOptions
  authSource : Option String
  replicaSet : Option String
  schema : Option String
  ssl : Option PgSsl
deriving DecidableEq, Repr

/-- JS truthiness of the (MongoDB-read) ssl field. -/
def DatabaseCredentials.sslTruthy (c : DatabaseCredentials) : Bool :=
  match c.ssl with
  | none => false
  | some (.bool b) => b
  | some (.obj _) => true

/-- The TenantConfig interface. -/
structure TenantConfig where
  tenantId : String
  databaseType : DatabaseType
  credentials : DatabaseCredentials
  connectionName : Option String
deriving DecidableEq, Repr

/-- The ConnectionInfo record stored in the manager's registry map.
Timestamps are `Int` milliseconds. -/
structure ConnectionInfo where
  tenantId : String
  databaseType : DatabaseType
  connection : Handle
  createdAt : Int
  lastUsed : Int
  isActive : Bool
deriving DecidableEq, Repr

/-- The manager's `Map<string, ConnectionInfo>`, as an insertion-ordered
association list (the iteration order of a JS Map). -/
abbrev Registry := List (String × ConnectionInfo)

/-- Map.get: the value at a key, if present. -/
def getEntry : Registry → String → Option ConnectionInfo
  | [], _ => none
  | (k', v') :: rest, k => if k' = k then some v' else getEntry rest k

/-- Map.set: overwrite in place if the key is present, else append. -/
def setEntry : Registry → String → ConnectionInfo → Registry
  | [], k, v => [(k, v)]
  | (k', v') :: rest, k, v =>
    if k' = k then (k, v) :: rest else (k', v') :: setEntry rest k v

/-- Map.delete: remove the entry at a key (keys are unique in a Map). -/
def delEntry : Registry → String → Registry
  | [], _ => []
  | (k', v') :: rest, k => if k' = k then rest else (k', v') :: delEntry rest k

/-- Errors surfaced by the manager (section 7 of the spec's taxonomy,
as thrown by the code). -/
inductive DBError where
  | unsupportedBackend (msg : String)
  | connectionError (msg : String)
deriving DecidableEq, Repr

/-- A constructed BaseConnector object (databaseType, credentials and
merged options), before any I/O. -/
structure BaseConnectorData where
  databaseType : DatabaseType
  credentials : DatabaseCredentials
  options : ConnectionOptions
deriving DecidableEq, Repr

/-- The full state of a MultiTenantManager instance. -/
structure ManagerState where
  connections : Registry
  config : MultiTenantConfig
  defaultOptions : ConnectionOptions
deriving DecidableEq, Repr

namespace MultiTenantManager

/-- The hard-coded defaultConfig.defaultOptions of the constructor. -/
def defaultConfigOptions : ConnectionOptions :=
  ⟨some 10, some 5000, some 30000, some 3, some 1000⟩

/-- The hard-coded defaultConfig of the constructor. -/
def defaultConfig : MultiTenantConfig :=
  ⟨some defaultConfigOptions, some true, some true, some .info⟩

/-- The constructor: merge the caller's config over the defaults, with
`defaultOptions` merged key-by-key, and copy the resolved options into
`this.defaultOptions`. -/
def make (config : MultiTenantConfig) : ManagerState :=
  let mergedOptions :=
    ConnectionOptions.merge defaultConfigOptions (ConnectionOptions.spread config.defaultOptions)
  let cfg :=
    { MultiTenantConfig.spreadMerge defaultConfig config with defaultOptions := some mergedOptions }
  ⟨[], cfg, mergedOptions⟩

/-- The private createConnector: merge the manager's default options
with the credentials' pass-through options, then dispatch on the
database type, throwing on the `default` branch. -/
def createConnector (st : ManagerState) (tenantConfig : TenantConfig) :
    Except DBError BaseConnectorData :=
  let options := ConnectionOptions.merge st.defaultOptions tenantConfig.credentials.options
  match tenantConfig.databaseType with
  | .mongodb => .ok ⟨.mongodb, tenantConfig.credentials, options⟩
  | .postgresql => .ok ⟨.postgresql, tenantConfig.credentials, options⟩
  | .other s => .error (.unsupportedBackend ("Unsupported database type: " ++ s))

/-- The private testConnection of the manager: dispatch on the database
type, check the structural guard on the raw handle (`connection.db` for
mongoose, `connection.isInitialized` for TypeORM), then issue the probe,
whose awaited outcome is the oracle `probeOk`; every failure (guard
falsy, unknown type, or thrown probe) yields `false`. -/
def testConnection (connection : Handle) (databaseType : DatabaseType) (probeOk : Bool) : Bool :=
  match databaseType with
  | .mongodb => connection.hasDb && probeOk
  | .postgresql => connection.isInitialized && probeOk
  | .other _ => false

/-- Oracle inputs consumed by one `getConnection` call: the probe
outcome for an existing handle, the driver's connect outcome, and the
values of the up to three `new Date()` constructions, in program order
(`tProbe` for the lastUsed refresh of a found entry, `tCreated` and
`tLastUsed` for a freshly created entry). -/
structure GetConnEnv where
  probeOk : Bool
  connectResult : Except String Handle
  tProbe : Int
  tCreated : Int
  tLastUsed : Int

/-- Result of a `getConnection` call: the returned handle or thrown
error, the new manager state, and the number of backend connect
attempts performed. -/
structure GetConnOut where
  result : Except DBError Handle
  state : ManagerState
  connects : Nat

/-- The creation section of getConnection (reached when no usable
entry exists): build a connector, connect, store a fresh entry. -/
def getConnectionCreate (st1 : ManagerState) (tenantId : String) (tenantConfig : TenantConfig)
    (env : GetConnEnv) : GetConnOut :=
  match createConnector st1 tenantConfig with
  | .error e => ⟨.error e, st1, 0⟩
  | .ok _ =>
    match env.connectResult with
    | .error m => ⟨.error (.connectionError m), st1, 1⟩
    | .ok connection =>
      let connectionInfo : ConnectionInfo :=
        ⟨tenantId, tenantConfig.databaseType, connection, env.tCreated, env.tLastUsed, true⟩
      ⟨.ok connection,
        { st1 with connections := setEntry st1.connections tenantId connectionInfo }, 1⟩

/-- getConnection (src/unnamed/part_002, lines 50-91): reuse a found
active entry whose probe succeeds (refreshing `lastUsed` in place before
probing, as the code mutates the stored object), delete it when the
probe fails, and otherwise create a connector, connect, and store a
fresh entry.  Errors from createConnector/connect propagate. -/
def getConnection (st : ManagerState) (tenantId : String) (tenantConfig : TenantConfig)
    (env : GetConnEnv) : GetConnOut :=
  match getEntry st.connections tenantId with
  | some existingConnection =>
    if existingConnection.isActive then
      let refreshed := { existingConnection with lastUsed := env.tProbe }
      let st1 := { st with connections := setEntry st.connections tenantId refreshed }
      if testConnection refreshed.connection tenantConfig.databaseType env.probeOk then
        ⟨.ok refreshed.connection, st1, 0⟩
      else
        getConnectionCreate { st1 with connections := delEntry st1.connections tenantId }
          tenantId tenantConfig env
    else
      getConnectionCreate st tenantId tenantConfig env
  | none => getConnectionCreate st tenantId tenantConfig env

/-- hasConnection: an entry exists and is active. -/
def hasConnection (st : ManagerState) (tenantId : String) : Bool :=
  match getEntry st.connections tenantId with
  | some connectionInfo => connectionInfo.isActive
  | none => false

/-- closeConnection (lines 180-205): when an entry exists, attempt the
backend-appropriate close (oracle `closeResult` gives the awaited
outcome) and delete the entry both on success and in the catch branch;
no entry means no effect.  No error ever escapes. -/
def closeConnection (st : ManagerState) (tenantId : String)
    (closeResult : Except String Unit) : ManagerState :=
  match getEntry st.connections tenantId with
  | none => st
  | some _ =>
    match closeResult with
    | .ok _ => { st with connections := delEntry st.connections tenantId }
    | .error _ => { st with connections := delEntry st.connections tenantId }

/-- closeAllConnections: snapshot the key set, then close each. -/
def closeAllConnections (st : ManagerState)
    (closeResults : String → Except String Unit) : ManagerState :=
  let tenantIds := st.connections.map (·.1)
  tenantIds.foldl (fun s tid => closeConnection s tid (closeResults tid)) st

/-- cleanupInactiveConnections (lines 223-241): collect the tenant ids
whose idle time strictly exceeds `maxIdleTime`, then close each. -/
def cleanupInactiveConnections (st : ManagerState) (now : Int) (maxIdleTime : Int)
    (closeResults : String → Except String Unit) : ManagerState :=
  let tenantIdsToRemove :=
    (st.connections.filter (fun p => decide (now - p.2.lastUsed > maxIdleTime))).map (·.1)
  tenantIdsToRemove.foldl (fun s tid => closeConnection s tid (closeResults tid)) st

/-- cleanupInactiveConnections with its default argument (300000 ms). -/
def cleanupInactiveConnectionsDefault (st : ManagerState) (now : Int)
    (closeResults : String → Except String Unit) : ManagerState :=
  cleanupInactiveConnections st now 300000 closeResults

/-- updateConfig (lines 309-320): spread-merge the update over the
current config, rebuild `defaultOptions` key-by-key, and refresh the
`this.defaultOptions` copy. -/
def updateConfig (st : ManagerState) (newConfig : MultiTenantConfig) : ManagerState :=
  let mergedOptions :=
    ConnectionOptions.merge (ConnectionOptions.spread st.config.defaultOptions)
      (ConnectionOptions.spread newConfig.defaultOptions)
  let config :=
    { MultiTenantConfig.spreadMerge st.config newConfig with defaultOptions := some mergedOptions }
  { st with config := config, defaultOptions := mergedOptions }

/-- getConfig returns a shallow copy of the config. -/
def getConfig (st : ManagerState) : MultiTenantConfig := st.config

end MultiTenantManager

/-- Internal state shared by both connector classes: the typed driver
connection field (`mongooseConnection` / `typeormConnection`) and the
`isConnected` flag of BaseConnector. -/
structure ConnectorState where
  connection : Option Handle
  isConnected : Bool
deriving DecidableEq, Repr

/-- Result of a connector `connect()` call: the returned handle or
thrown (wrapped) error, the new connector state, and the number of
driver connect attempts performed. -/
structure ConnectOut where
  result : Except String Handle
  state : ConnectorState
  connects : Nat

namespace MongoDBConnector

/-- MongoDBConnector.connect (src/unnamed/part_000, lines 55-97): if
already connected with a handle present, return it without a driver
call; otherwise attempt `mongoose.createConnection` (oracle
`driverResult`), storing the handle and setting `isConnected` on
success, and wrapping the error with the flag cleared on failure. -/
def connect (st : ConnectorState) (driverResult : Except String Handle) : ConnectOut :=
  match st.isConnected, st.connection with
  | true, some h => ⟨.ok h, st, 0⟩
  | _, _ =>
    match driverResult with
    | .error m => ⟨.error ("Failed to connect to MongoDB: " ++ m), { st with isConnected := false }, 1⟩
    | .ok h => ⟨.ok h, ⟨some h, true⟩, 1⟩

/-- MongoDBConnector.testConnection (lines 118-129): connect first when
no handle exists, then run `db.admin().ping()` on the stored handle
(accessing `db` on a handle without one throws, and the oracle `pingOk`
gives the awaited ping outcome); any thrown error is caught and turned
into `false`.  Returns the boolean, the resulting state and the number
of connect attempts. -/
def testConnection (st : ConnectorState) (driverResult : Except String Handle)
    (pingOk : Bool) : Bool × ConnectorState × Nat :=
  match st.connection with
  | none =>
    let out := connect st driverResult
    match out.result with
    | .error _ => (false, out.state, out.connects)
    | .ok _ =>
      match out.state.connection with
      | some h => (h.hasDb && pingOk, out.state, out.connects)
      | none => (false, out.state, out.connects)
  | some h => (h.hasDb && pingOk, st, 0)

/-- MongoDBConnector.ping (lines 160-171): return `false` at once when
no handle exists (performing no connect attempt), else the same probe
as testConnection; errors become `false`. -/
def ping (st : ConnectorState) (pingOk : Bool) : Bool × Nat :=
  match st.connection with
  | none => (false, 0)
  | some h => (h.hasDb && pingOk, 0)

/-- MongoDBConnector.buildConnectionString (lines 20-50).  `enc` stands
for the platform function `encodeURIComponent`. -/
def buildConnectionString (enc : String → String) (credentials : DatabaseCredentials) : String :=
  let auth :=
    if credentials.username ≠ "" ∧ credentials.password ≠ "" then
      enc credentials.username ++ ":" ++ enc credentials.password ++ "@"
    else ""
  let base := "mongodb://" ++ auth ++ credentials.host ++ ":" ++ toString credentials.port
    ++ "/" ++ credentials.database
  let queryParams :=
    (match credentials.authSource with
     | some a => if a ≠ "" then ["authSource=" ++ a] else []
     | none => []) ++
    (match credentials.replicaSet with
     | some r => if r ≠ "" then ["replicaSet=" ++ r] else []
     | none => []) ++
    (if credentials.sslTruthy then ["ssl=true"] else [])
  if queryParams.length > 0 then base ++ "?" ++ String.intercalate "&" queryParams else base

end MongoDBConnector

namespace PostgreSQLConnector

/-- PostgreSQLConnector.connect (postgresql-connector.ts, lines
53-109): same reuse guard as the MongoDB variant, with the TypeORM
`createConnection` outcome as oracle and its own wrapping message. -/
def connect (st : ConnectorState) (driverResult : Except String Handle) : ConnectOut :=
  match st.isConnected, st.connection with
  | true, some h => ⟨.ok h, st, 0⟩
  | _, _ =>
    match driverResult with
    | .error m => ⟨.error ("Failed to connect to PostgreSQL: " ++ m), { st with isConnected := false }, 1⟩
    | .ok h => ⟨.ok h, ⟨some h, true⟩, 1⟩

/-- PostgreSQLConnector.testConnection (lines 130-141): connect first
when no handle exists, then run the trivial query `SELECT 1` (oracle
`queryOk`); any thrown error is caught and turned into `false`. -/
def testConnection (st : ConnectorState) (driverResult : Except String Handle)
    (queryOk : Bool) : Bool × ConnectorState × Nat :=
  match st.connection with
  | none =>
    let out := connect st driverResult
    match out.result with
    | .error _ => (false, out.state, out.connects)
    | .ok _ => (queryOk, out.state, out.connects)
  | some _ => (queryOk, st, 0)

/-- PostgreSQLConnector.ping (lines 174-185): `false` at once when no
handle exists (no connect attempt), else the `SELECT 1` probe. -/
def ping (st : ConnectorState) (queryOk : Bool) : Bool × Nat :=
  match st.connection with
  | none => (false, 0)
  | some _ => (queryOk, 0)

/-- PostgreSQLConnector.buildConnectionString (lines 20-48).  `enc`
stands for the platform function `encodeURIComponent`. -/
def buildConnectionString (enc : String → String) (credentials : DatabaseCredentials) : String :=
  let base := "postgresql://" ++ enc credentials.username ++ ":" ++ enc credentials.password
    ++ "@" ++ credentials.host ++ ":" ++ toString credentials.port ++ "/" ++ credentials.database
  let queryParams :=
    (match credentials.schema with
     | some s => if s ≠ "" then ["search_path=" ++ s] else []
     | none => []) ++
    (match credentials.ssl with
     | none => []
     | some (.bool false) => []
     | some (.bool true) => ["sslmode=require"]
     | some (.obj ru) =>
       if ru = some false then ["sslmode=require&sslmode=no-verify"] else ["sslmode=require"])
  if queryParams.length > 0 then base ++ "?" ++ String.intercalate "&" queryParams else base

end PostgreSQLConnector

/-- JS `String.prototype.trim`, the platform primitive used by the
credential checks: strip whitespace from both ends. -/
def jsTrim (s : String) : String :=
  String.mk (((s.data.dropWhile Char.isWhitespace).reverse.dropWhile Char.isWhitespace).reverse)

namespace ConnectorFactory

/-- ConnectorFactory.isDatabaseTypeSupported: membership in the values
of the DatabaseType enum. -/
def isDatabaseTypeSupported (databaseType : DatabaseType) : Bool :=
  match databaseType with
  | .mongodb => true
  | .postgresql => true
  | .other _ => false

/-- ConnectorFactory.validateCredentials (src/unnamed/part_003, lines
50-79): JS-falsiness presence checks on the five required fields in
order (the empty string and the number 0 are falsy), then the port
range, then trimmed non-emptiness of host and database. -/
def validateCredentials (credentials : DatabaseCredentials) : Except String Bool :=
  if credentials.host = "" then .error "Missing required field: host"
  else if credentials.port = 0 then .error "Missing required field: port"
  else if credentials.username = "" then .error "Missing required field: username"
  else if credentials.password = "" then .error "Missing required field: password"
  else if credentials.database = "" then .error "Missing required field: database"
  else if credentials.port < 1 ∨ credentials.port > 65535 then
    .error "Port must be a valid number between 1 and 65535"
  else if jsTrim credentials.host = "" then .error "Host must be a non-empty string"
  else if jsTrim credentials.database = "" then
    .error "Database name must be a non-empty string"
  else .ok true

/-- ConnectorFactory.createConnector (lines 10-25): dispatch on the
database type, throwing on the `default` branch. -/
def createConnector (databaseType : DatabaseType) (credentials : DatabaseCredentials)
    (options : ConnectionOptions) : Except String BaseConnectorData :=
  match databaseType with
  | .mongodb => .ok ⟨.mongodb, credentials, options⟩
  | .postgresql => .ok ⟨.postgresql, credentials, options⟩
  | .other s => .error ("Unsupported database type: " ++ s)

end ConnectorFactory

/-- JS `String.prototype.startsWith`, the platform primitive used by
isValidConnectionString: the pattern's characters are a prefix of the
string's characters. -/
def strStartsWith (s p : String) : Bool := p.data.isPrefixOf s.data

namespace ConnectionValidator

/-- Body of ConnectionValidator.validateTenantConfig (src/unnamed/
part_002, lines 336-363) before its catch-and-rewrap: the structural
checks in program order, then the factory's credential validation.  The
JS check `!config.databaseType` tests the string value's truthiness. -/
def validateTenantConfigRaw (config : TenantConfig) : Except String Bool :=
  if config.tenantId = "" then .error "Tenant ID must be a non-empty string"
  else if config.databaseType.str = "" then .error "Database type is required"
  else if ¬ ConnectorFactory.isDatabaseTypeSupported config.databaseType then
    .error ("Unsupported database type: " ++ config.databaseType.str)
  else
    match ConnectorFactory.validateCredentials config.credentials with
    | .error m => .error m
    | .ok _ => .ok true

/-- ConnectionValidator.validateTenantConfig: rewrap any failure. -/
def validateTenantConfig (config : TenantConfig) : Except String Bool :=
  match validateTenantConfigRaw config with
  | .ok b => .ok b
  | .error m => .error ("Invalid tenant configuration: " ++ m)

/-- The loop of validateMultipleTenantConfigs: validate each config,
then reject a tenantId already seen. -/
def validateLoop (seen : List String) : List TenantConfig → Except String Bool
  | [] => .ok true
  | config :: rest =>
    match validateTenantConfig config with
    | .error m => .error m
    | .ok _ =>
      if seen.contains config.tenantId then
        .error ("Duplicate tenant ID found: " ++ config.tenantId)
      else
        validateLoop (config.tenantId :: seen) rest

/-- ConnectionValidator.validateMultipleTenantConfigs (lines 445-463):
run the loop with an empty seen-set and rewrap any failure. -/
def validateMultipleTenantConfigs (configs : List TenantConfig) : Except String Bool :=
  match validateLoop [] configs with
  | .ok b => .ok b
  | .error m => .error ("Invalid tenant configurations: " ++ m)

/-- ConnectionValidator.isValidConnectionString (lines 468-488):
falsy-string guard, then a schema-prefix check per backend kind. -/
def isValidConnectionString (connectionString : String) (databaseType : DatabaseType) : Bool :=
  if connectionString = "" then false
  else
    match databaseType with
    | .mongodb =>
      strStartsWith connectionString "mongodb://" || strStartsWith connectionString "mongodb+srv://"
    | .postgresql =>
      strStartsWith connectionString "postgresql://" || strStartsWith connectionString "postgres://"
    | .other _ => false

end ConnectionValidator

/-! ### Operation traces over the manager

One step per public mutating entry point, with every oracle input
explicit, used to state registry invariants across arbitrary call
sequences. -/

/-- One public mutating call on the manager. -/
inductive ManagerOp where
  | getConn (tenantId : String) (tenantConfig : TenantConfig) (env : MultiTenantManager.GetConnEnv)
  | closeConn (tenantId : String) (closeResult : Except String Unit)
  | closeAll (closeResults : String → Except String Unit)
  | cleanup (now : Int) (maxIdleTime : Int) (closeResults : String → Except String Unit)
  | updateCfg (newConfig : MultiTenantConfig)

/-- State transition of one manager call. -/
def stepOp (st : ManagerState) : ManagerOp → ManagerState
  | .getConn tid cfg env => (MultiTenantManager.getConnection st tid cfg env).state
  | .closeConn tid r => MultiTenantManager.closeConnection st tid r
  | .closeAll rs => MultiTenantManager.closeAllConnections st rs
  | .cleanup now maxIdle rs => MultiTenantManager.cleanupInactiveConnections st now maxIdle rs
  | .updateCfg c => MultiTenantManager.updateConfig st c

/-- Run a sequence of manager calls. -/
def runOps (st : ManagerState) : List ManagerOp → ManagerState
  | [] => st
  | op :: rest => runOps (stepOp st op) rest

/-- Clock floor after an op: the last `Date.now`-style reading the op
may have consumed, given the floor `c` before it. -/
def opClockEnd (c : Int) : ManagerOp → Int
  | .getConn _ _ env => env.tLastUsed
  | .cleanup now _ _ => now
  | _ => c

/-- The clock readings an op consumes are non-decreasing in program
order and not earlier than the floor `c` (a non-decreasing wall clock). -/
def OpWellTimed (c : Int) : ManagerOp → Prop
  | .getConn _ _ env => c ≤ env.tProbe ∧ env.tProbe ≤ env.tCreated ∧ env.tCreated ≤ env.tLastUsed
  | .cleanup now _ _ => c ≤ now
  | _ => True

/-- A whole call sequence is served by a non-decreasing clock starting
at floor `c`. -/
def WellTimedFrom (c : Int) : List ManagerOp → Prop
  | [] => True
  | op :: rest => OpWellTimed c op ∧ WellTimedFrom (opClockEnd c op) rest

/-- Timestamp invariant: every registry entry has
`createdAt ≤ lastUsed`, and no stored timestamp is ahead of the clock
floor `c`. -/
def TimestampInv (st : ManagerState) (c : Int) : Prop :=
  ∀ p ∈ st.connections, p.2.createdAt ≤ p.2.lastUsed ∧ p.2.lastUsed ≤ c

/-! ### Registry lemmas -/

/-- Keys of a registry are pairwise distinct (holds for every JS Map). -/
def keysNodup (m : Registry) : Prop := (m.map Prod.fst).Nodup

theorem getEntry_setEntry_self (m : Registry) (k : String) (v : ConnectionInfo) :
    getEntry (setEntry m k v) k = some v := by
  induction m with
  | nil => simp [setEntry, getEntry]
  | cons p rest ih =>
    obtain ⟨a, b⟩ := p
    by_cases hk : a = k
    · simp [setEntry, hk, getEntry]
    · simp [setEntry, hk, getEntry, ih]

theorem getEntry_setEntry_ne (m : Registry) (k k' : String) (v : ConnectionInfo)
    (h : k ≠ k') : getEntry (setEntry m k v) k' = getEntry m k' := by
  induction m with
  | nil => simp [setEntry, getEntry, h]
  | cons p rest ih =>
    obtain ⟨a, b⟩ := p
    by_cases hk : a = k
    · simp [setEntry, hk, getEntry, h]
    · by_cases hk' : a = k'
      · subst hk'
        simp [setEntry, hk, getEntry]
      · simp [setEntry, hk, getEntry, hk', ih]

theorem getEntry_eq_none_of_not_mem (m : Registry) (k : String)
    (h : k ∉ m.map Prod.fst) : getEntry m k = none := by
  induction m with
  | nil => rfl
  | cons p rest ih =>
    obtain ⟨a, b⟩ := p
    simp only [List.map_cons, List.mem_cons] at h
    push_neg at h
    have ha : ¬a = k := fun hh => h.1 hh.symm
    simp [getEntry, ha, ih h.2]

theorem delEntry_of_getEntry_none (m : Registry) (k : String)
    (h : getEntry m k = none) : delEntry m k = m := by
  induction m with
  | nil => rfl
  | cons p rest ih =>
    obtain ⟨a, b⟩ := p
    by_cases hk : a = k
    · simp [getEntry, hk] at h
    · simp only [getEntry, if_neg hk] at h
      simp [delEntry, hk, ih h]

theorem getEntry_delEntry_ne (m : Registry) (k k' : String) (h : k' ≠ k) :
    getEntry (delEntry m k) k' = getEntry m k' := by
  induction m with
  | nil => rfl
  | cons p rest ih =>
    obtain ⟨a, b⟩ := p
    by_cases hk : a = k
    · subst hk
      simp [delEntry, getEntry, Ne.symm h]
    · simp only [delEntry, if_neg hk]
      by_cases hk' : a = k'
      · simp [getEntry, hk']
      · simp [getEntry, hk', ih]

theorem delEntry_sublist (m : Registry) (k : String) : (delEntry m k).Sublist m := by
  induction m with
  | nil => simp [delEntry]
  | cons p rest ih =>
    obtain ⟨a, b⟩ := p
    by_cases hk : a = k
    · simp only [delEntry, if_pos hk]
      exact List.sublist_cons_self _ _
    · simpa [delEntry, hk] using ih

theorem keysNodup_delEntry (m : Registry) (k : String) (h : keysNodup m) :
    keysNodup (delEntry m k) :=
  List.Nodup.sublist (List.Sublist.map Prod.fst (delEntry_sublist m k)) h

theorem getEntry_delEntry_self (m : Registry) (hn : keysNodup m) (k : String) :
    getEntry (delEntry m k) k = none := by
  induction m with
  | nil => rfl
  | cons p rest ih =>
    obtain ⟨a, b⟩ := p
    have hn' : keysNodup rest := (List.nodup_cons.mp hn).2
    by_cases hk : a = k
    · have : k ∉ rest.map Prod.fst := hk ▸ (List.nodup_cons.mp hn).1
      simp [delEntry, hk, getEntry_eq_none_of_not_mem rest k this]
    · simp [delEntry, hk, getEntry, ih hn']

theorem mem_setEntry (m : Registry) (k : String) (v : ConnectionInfo)
    (p : String × ConnectionInfo) (h : p ∈ setEntry m k v) : p = (k, v) ∨ p ∈ m := by
  induction m with
  | nil => simpa [setEntry] using h
  | cons q rest ih =>
    obtain ⟨a, b⟩ := q
    by_cases hk : a = k
    · rcases (by simpa [setEntry, hk] using h : p = (k, v) ∨ p ∈ rest) with h1 | h1
      · exact Or.inl h1
      · exact Or.inr (List.mem_cons_of_mem _ h1)
    · rcases (by simpa [setEntry, hk] using h : p = (a, b) ∨ p ∈ setEntry rest k v) with h1 | h1
      · exact Or.inr (by simp [h1])
      · rcases ih h1 with h2 | h2
        · exact Or.inl h2
        · exact Or.inr (List.mem_cons_of_mem _ h2)

theorem mem_delEntry (m : Registry) (k : String) (p : String × ConnectionInfo)
    (h : p ∈ delEntry m k) : p ∈ m :=
  (delEntry_sublist m k).mem h

theorem closeConnection_connections (st : ManagerState) (tid : String) (r : Except String Unit) :
    (MultiTenantManager.closeConnection st tid r).connections = delEntry st.connections tid := by
  unfold MultiTenantManager.closeConnection
  rcases hg : getEntry st.connections tid with _ | e
  · simp [delEntry_of_getEntry_none _ _ hg]
  · rcases r with m | u <;> simp

theorem foldl_close_connections (L : List String) (f : String → Except String Unit)
    (st : ManagerState) :
    (L.foldl (fun s tid => MultiTenantManager.closeConnection s tid (f tid)) st).connections
      = L.foldl (fun m tid => delEntry m tid) st.connections := by
  induction L generalizing st with
  | nil => rfl
  | cons d L ih =>
    simp only [List.foldl_cons]
    rw [ih, closeConnection_connections]

theorem mem_foldl_delEntry (L : List String) (m : Registry) (p : String × ConnectionInfo)
    (h : p ∈ L.foldl (fun m tid => delEntry m tid) m) : p ∈ m := by
  induction L generalizing m with
  | nil => exact h
  | cons d L ih => exact mem_delEntry _ _ _ (ih (delEntry m d) h)

theorem getEntry_foldl_delEntry (L : List String) (m : Registry) (hn : keysNodup m)
    (k : String) :
    getEntry (L.foldl (fun m tid => delEntry m tid) m) k
      = if k ∈ L then none else getEntry m k := by
  induction L generalizing m with
  | nil => simp
  | cons d L ih =>
    simp only [List.foldl_cons]
    rw [ih _ (keysNodup_delEntry m d hn)]
    by_cases hkL : k ∈ L
    · simp [hkL]
    · by_cases hkd : k = d
      · subst hkd
        simp [hkL, getEntry_delEntry_self m hn k]
      · simp [hkL, hkd, getEntry_delEntry_ne m d k hkd]

theorem filter_map_fst_subset (m : Registry) (pred : String × ConnectionInfo → Bool)
    (k : String) (hk : k ∈ (m.filter pred).map Prod.fst) : k ∈ m.map Prod.fst := by
  simp only [List.mem_map] at hk ⊢
  obtain ⟨p, hp, hpk⟩ := hk
  exact ⟨p, List.mem_of_mem_filter hp, hpk⟩

theorem mem_iff_getEntry_eq_some (m : Registry) (hn : keysNodup m) (k : String)
    (e : ConnectionInfo) : (k, e) ∈ m ↔ getEntry m k = some e := by
  induction m with
  | nil => simp [getEntry]
  | cons p rest ih =>
    obtain ⟨a, b⟩ := p
    have hn' : keysNodup rest := (List.nodup_cons.mp hn).2
    have hna : a ∉ rest.map Prod.fst := (List.nodup_cons.mp hn).1
    by_cases hk : a = k
    · subst hk
      have hnotin : (a, e) ∉ rest := fun hmem =>
        hna (List.mem_map.mpr ⟨(a, e), hmem, rfl⟩)
      have hget : getEntry ((a, b) :: rest) a = some b := by simp [getEntry]
      rw [hget]
      constructor
      · intro h1
        rcases List.mem_cons.mp h1 with h1 | h1
        · exact congrArg some (congrArg Prod.snd h1).symm
        · exact absurd h1 hnotin
      · intro h1
        obtain rfl : b = e := by simpa using h1
        exact List.mem_cons_self _ _
    · simp only [List.mem_cons, getEntry, if_neg hk]
      rw [← ih hn']
      constructor
      · rintro (h1 | h1)
        · exact absurd (congrArg Prod.fst h1).symm hk
        · exact h1
      · exact Or.inr

theorem mem_filterKeys_iff (m : Registry) (hn : keysNodup m)
    (pred : String × ConnectionInfo → Bool) (k : String) :
    (k ∈ (m.filter pred).map Prod.fst) ↔ ∃ e, getEntry m k = some e ∧ pred (k, e) = true := by
  simp only [List.mem_map, List.mem_filter]
  constructor
  · rintro ⟨⟨k', e⟩, ⟨hmem, hpred⟩, rfl⟩
    exact ⟨e, (mem_iff_getEntry_eq_some m hn _ e).mp hmem, hpred⟩
  · rintro ⟨e, he, hpe⟩
    exact ⟨(k, e), ⟨(mem_iff_getEntry_eq_some m hn k e).mpr he, hpe⟩, rfl⟩

theorem getEntry_some_mem (m : Registry) (k : String) (e : ConnectionInfo)
    (h : getEntry m k = some e) : (k, e) ∈ m := by
  induction m with
  | nil => simp [getEntry] at h
  | cons p rest ih =>
    obtain ⟨a, b⟩ := p
    by_cases hk : a = k
    · subst hk
      have hab : getEntry ((a, b) :: rest) a = some b := by simp [getEntry]
      rw [hab] at h
      obtain rfl : b = e := by simpa using h
      exact List.mem_cons_self _ _
    · simp only [getEntry, if_neg hk] at h
      exact List.mem_cons_of_mem _ (ih h)

theorem TimestampInv.mono (st : ManagerState) (c c' : Int) (h : TimestampInv st c)
    (hcc : c ≤ c') : TimestampInv st c' :=
  fun p hp => ⟨(h p hp).1, le_trans (h p hp).2 hcc⟩

theorem getConnectionCreate_inv (st1 : ManagerState) (tid : String) (cfg : TenantConfig)
    (env : MultiTenantManager.GetConnEnv)
    (hinv : TimestampInv st1 env.tLastUsed) (h3 : env.tCreated ≤ env.tLastUsed) :
    TimestampInv (MultiTenantManager.getConnectionCreate st1 tid cfg env).state
      env.tLastUsed := by
  rcases hdt : cfg.databaseType with _ | _ | s <;>
    rcases henv : env.connectResult with m | h <;>
      simp only [MultiTenantManager.getConnectionCreate, MultiTenantManager.createConnector,
        hdt, henv] <;>
      first
        | exact hinv
        | · intro p hp
            rcases mem_setEntry _ _ _ _ hp with heq | hp'
            · subst heq
              exact ⟨h3, le_refl _⟩
            · exact hinv p hp'

theorem getConnection_inv (st : ManagerState) (tid : String) (cfg : TenantConfig)
    (env : MultiTenantManager.GetConnEnv) (c : Int) (hinv : TimestampInv st c)
    (h1 : c ≤ env.tProbe) (h2 : env.tProbe ≤ env.tCreated)
    (h3 : env.tCreated ≤ env.tLastUsed) :
    TimestampInv (MultiTenantManager.getConnection st tid cfg env).state env.tLastUsed := by
  have hPL : env.tProbe ≤ env.tLastUsed := le_trans h2 h3
  have hCL : c ≤ env.tLastUsed := le_trans h1 hPL
  have hinvL : TimestampInv st env.tLastUsed := TimestampInv.mono st c _ hinv hCL
  rcases hge : getEntry st.connections tid with _ | e
  · simp only [MultiTenantManager.getConnection, hge]
    exact getConnectionCreate_inv st tid cfg env hinvL h3
  · have hmem : (tid, e) ∈ st.connections := getEntry_some_mem _ _ _ hge
    have hrefresh : TimestampInv
        { st with connections := setEntry st.connections tid { e with lastUsed := env.tProbe } }
        env.tLastUsed := by
      intro p hp
      rcases mem_setEntry _ _ _ _ hp with heq | hp'
      · subst heq
        exact ⟨le_trans (hinv _ hmem).1 (le_trans (hinv _ hmem).2 h1), hPL⟩
      · exact hinvL p hp'
    by_cases hact : e.isActive = true
    · rw [hact] at hrefresh
      by_cases hprobe : MultiTenantManager.testConnection e.connection cfg.databaseType
          env.probeOk = true
      · simp only [MultiTenantManager.getConnection, hge, hact, if_true, hprobe]
        exact hrefresh
      · simp only [MultiTenantManager.getConnection, hge, hact, if_true, hprobe, if_false]
        refine getConnectionCreate_inv _ tid cfg env ?_ h3
        intro p hp
        exact hrefresh p (mem_delEntry _ _ _ hp)
    · simp only [MultiTenantManager.getConnection, hge, hact, if_false]
      exact getConnectionCreate_inv st tid cfg env hinvL h3

theorem stepOp_inv (st : ManagerState) (c : Int) (op : ManagerOp)
    (hinv : TimestampInv st c) (hw : OpWellTimed c op) :
    TimestampInv (stepOp st op) (opClockEnd c op) := by
  cases op with
  | getConn tid cfg env =>
    obtain ⟨h1, h2, h3⟩ := hw
    exact getConnection_inv st tid cfg env c hinv h1 h2 h3
  | closeConn tid r =>
    intro p hp
    have hc : (stepOp st (.closeConn tid r)).connections = delEntry st.connections tid :=
      closeConnection_connections st tid r
    exact hinv p (mem_delEntry _ _ _ (hc ▸ hp))
  | closeAll rs =>
    intro p hp
    have hc : (stepOp st (.closeAll rs)).connections
        = (st.connections.map Prod.fst).foldl (fun m tid => delEntry m tid) st.connections := by
      simp only [stepOp, MultiTenantManager.closeAllConnections]
      exact foldl_close_connections _ _ _
    exact hinv p (mem_foldl_delEntry _ _ _ (hc ▸ hp))
  | cleanup now maxIdle rs =>
    intro p hp
    have hc : (stepOp st (.cleanup now maxIdle rs)).connections
        = ((st.connections.filter
              (fun q => decide (now - q.2.lastUsed > maxIdle))).map Prod.fst).foldl
            (fun m tid => delEntry m tid) st.connections := by
      simp only [stepOp, MultiTenantManager.cleanupInactiveConnections]
      exact foldl_close_connections _ _ _
    have hmem := mem_foldl_delEntry _ _ _ (hc ▸ hp)
    exact ⟨(hinv p hmem).1, le_trans (hinv p hmem).2 hw⟩
  | updateCfg cfg =>
    intro p hp
    exact hinv p hp

theorem runOps_inv (ops : List ManagerOp) (st : ManagerState) (c : Int)
    (hinv : TimestampInv st c) (hw : WellTimedFrom c ops) :
    ∀ p ∈ (runOps st ops).connections, p.2.createdAt ≤ p.2.lastUsed := by
  induction ops generalizing st c with
  | nil =>
    intro p hp
    exact (hinv p hp).1
  | cons op rest ih =>
    exact ih (stepOp st op) (opClockEnd c op) (stepOp_inv st c op hinv hw.1) hw.2

/-! ### Claim theorems -/

/-- C1: starting with no entry for the tenant, a first getConnection
that connects successfully followed immediately by a second one whose
liveness probe on the stored handle succeeds returns the same handle
both times, performs exactly one backend connect across the two calls,
and leaves the entry with `lastUsed` refreshed to the second call's
clock reading (and `isActive` still true). -/
theorem claim1_idempotent_reuse (st0 : ManagerState) (tid : String) (cfg : TenantConfig)
    (env1 env2 : MultiTenantManager.GetConnEnv) (h : Handle)
    (habs : getEntry st0.connections tid = none)
    (hkind : cfg.databaseType = DatabaseType.mongodb ∨ cfg.databaseType = DatabaseType.postgresql)
    (hconn : env1.connectResult = .ok h)
    (hlive : MultiTenantManager.testConnection h cfg.databaseType env2.probeOk = true) :
    (MultiTenantManager.getConnection st0 tid cfg env1).result = .ok h ∧
    (MultiTenantManager.getConnection
        (MultiTenantManager.getConnection st0 tid cfg env1).state tid cfg env2).result = .ok h ∧
    (MultiTenantManager.getConnection st0 tid cfg env1).connects
      + (MultiTenantManager.getConnection
          (MultiTenantManager.getConnection st0 tid cfg env1).state tid cfg env2).connects = 1 ∧
    getEntry (MultiTenantManager.getConnection
        (MultiTenantManager.getConnection st0 tid cfg env1).state tid cfg env2).state.connections
        tid
      = some ⟨tid, cfg.databaseType, h, env1.tCreated, env2.tProbe, true⟩ := by
  rcases hkind with hk | hk <;>
  · rw [hk] at hlive
    simp only [MultiTenantManager.testConnection, Bool.and_eq_true] at hlive
    simp [MultiTenantManager.getConnection, MultiTenantManager.getConnectionCreate, MultiTenantManager.createConnector,
      MultiTenantManager.testConnection, habs, hk, hconn, getEntry_setEntry_self, hlive]

/-- Witness for C1: a fresh manager, a MongoDB tenant, a successful
connect returning handle 7, and a succeeding probe on the second call. -/
theorem claim1_idempotent_reuse_witness :
    (MultiTenantManager.getConnection
        (MultiTenantManager.getConnection (MultiTenantManager.make ⟨none, none, none, none⟩)
          "t1"
          ⟨"t1", DatabaseType.mongodb,
            ⟨"h", 27017, "u", "p", "d", ConnectionOptions.empty, none, none, none, none⟩, none⟩
          ⟨true, .ok ⟨7, true, true⟩, 10, 11, 12⟩).state
        "t1"
        ⟨"t1", DatabaseType.mongodb,
          ⟨"h", 27017, "u", "p", "d", ConnectionOptions.empty, none, none, none, none⟩, none⟩
        ⟨true, .ok ⟨8, true, true⟩, 20, 21, 22⟩).result = .ok ⟨7, true, true⟩ := by
  have h := claim1_idempotent_reuse (MultiTenantManager.make ⟨none, none, none, none⟩) "t1"
    ⟨"t1", DatabaseType.mongodb,
      ⟨"h", 27017, "u", "p", "d", ConnectionOptions.empty, none, none, none, none⟩, none⟩
    ⟨true, .ok ⟨7, true, true⟩, 10, 11, 12⟩
    ⟨true, .ok ⟨8, true, true⟩, 20, 21, 22⟩
    ⟨7, true, true⟩ rfl (Or.inl rfl) rfl rfl
  exact h.2.1

/-- C2: when the second call's liveness probe on the stored handle
fails, the manager replaces the stale entry: the second call performs
one more backend connect (two across both calls), returns the freshly
connected handle, and the registry holds a fresh active entry carrying
the new handle and the second call's creation timestamps. -/
theorem claim2_stale_replacement (st0 : ManagerState) (tid : String) (cfg : TenantConfig)
    (env1 env2 : MultiTenantManager.GetConnEnv) (h1 h2 : Handle)
    (habs : getEntry st0.connections tid = none)
    (hkind : cfg.databaseType = DatabaseType.mongodb ∨ cfg.databaseType = DatabaseType.postgresql)
    (hconn1 : env1.connectResult = .ok h1)
    (hdead : MultiTenantManager.testConnection h1 cfg.databaseType env2.probeOk = false)
    (hconn2 : env2.connectResult = .ok h2) :
    (MultiTenantManager.getConnection st0 tid cfg env1).result = .ok h1 ∧
    (MultiTenantManager.getConnection
        (MultiTenantManager.getConnection st0 tid cfg env1).state tid cfg env2).result = .ok h2 ∧
    (MultiTenantManager.getConnection st0 tid cfg env1).connects
      + (MultiTenantManager.getConnection
          (MultiTenantManager.getConnection st0 tid cfg env1).state tid cfg env2).connects = 2 ∧
    getEntry (MultiTenantManager.getConnection
        (MultiTenantManager.getConnection st0 tid cfg env1).state tid cfg env2).state.connections
        tid
      = some ⟨tid, cfg.databaseType, h2, env2.tCreated, env2.tLastUsed, true⟩ := by
  rcases hkind with hk | hk <;>
  · rw [hk] at hdead
    simp only [MultiTenantManager.testConnection, Bool.and_eq_true] at hdead
    simp [MultiTenantManager.getConnection, MultiTenantManager.getConnectionCreate, MultiTenantManager.createConnector,
      MultiTenantManager.testConnection, habs, hk, hconn1, hconn2,
      getEntry_setEntry_self, hdead]

/-- Witness for C2: a fresh manager, a PostgreSQL tenant, a failing
probe on the second call and a second successful connect. -/
theorem claim2_stale_replacement_witness :
    (MultiTenantManager.getConnection
        (MultiTenantManager.getConnection (MultiTenantManager.make ⟨none, none, none, none⟩)
          "t1"
          ⟨"t1", DatabaseType.postgresql,
            ⟨"h", 5432, "u", "p", "d", ConnectionOptions.empty, none, none, none, none⟩, none⟩
          ⟨true, .ok ⟨7, true, true⟩, 10, 11, 12⟩).state
        "t1"
        ⟨"t1", DatabaseType.postgresql,
          ⟨"h", 5432, "u", "p", "d", ConnectionOptions.empty, none, none, none, none⟩, none⟩
        ⟨false, .ok ⟨8, true, true⟩, 20, 21, 22⟩).result = .ok ⟨8, true, true⟩ := by
  have h := claim2_stale_replacement (MultiTenantManager.make ⟨none, none, none, none⟩) "t1"
    ⟨"t1", DatabaseType.postgresql,
      ⟨"h", 5432, "u", "p", "d", ConnectionOptions.empty, none, none, none, none⟩, none⟩
    ⟨true, .ok ⟨7, true, true⟩, 10, 11, 12⟩
    ⟨false, .ok ⟨8, true, true⟩, 20, 21, 22⟩
    ⟨7, true, true⟩ ⟨8, true, true⟩ rfl (Or.inr rfl) rfl rfl rfl
  exact h.2.1

/-- C3: with no existing entry for the tenant, getConnection on an
unrecognized backend kind fails with the unsupported-backend error,
makes no connect attempt, and leaves the manager state (in particular
the registry, which still has no entry for the tenant) unchanged. -/
theorem claim3_unsupported_backend (st : ManagerState) (tid : String) (cfg : TenantConfig)
    (env : MultiTenantManager.GetConnEnv) (s : String)
    (habs : getEntry st.connections tid = none)
    (hkind : cfg.databaseType = DatabaseType.other s) :
    (MultiTenantManager.getConnection st tid cfg env).result
        = .error (.unsupportedBackend ("Unsupported database type: " ++ s)) ∧
    (MultiTenantManager.getConnection st tid cfg env).state = st ∧
    getEntry (MultiTenantManager.getConnection st tid cfg env).state.connections tid = none ∧
    (MultiTenantManager.getConnection st tid cfg env).connects = 0 := by
  simp [MultiTenantManager.getConnection, MultiTenantManager.getConnectionCreate, MultiTenantManager.createConnector, habs, hkind]

/-- Witness for C3 at a concrete input. -/
theorem claim3_unsupported_backend_witness :
    (MultiTenantManager.getConnection ⟨[], MultiTenantManager.defaultConfig,
        MultiTenantManager.defaultConfigOptions⟩ "t1"
        ⟨"t1", DatabaseType.other "mysql",
          ⟨"h", 5432, "u", "p", "d", ConnectionOptions.empty, none, none, none, none⟩, none⟩
        ⟨true, .ok ⟨0, true, true⟩, 0, 0, 0⟩).result
      = .error (.unsupportedBackend "Unsupported database type: mysql") := by
  have h := claim3_unsupported_backend
    ⟨[], MultiTenantManager.defaultConfig, MultiTenantManager.defaultConfigOptions⟩ "t1"
    ⟨"t1", DatabaseType.other "mysql",
      ⟨"h", 5432, "u", "p", "d", ConnectionOptions.empty, none, none, none, none⟩, none⟩
    ⟨true, .ok ⟨0, true, true⟩, 0, 0, 0⟩ "mysql" rfl rfl
  exact h.1

/-- C4: cleanupInactiveConnections removes exactly the entries whose
idle time `now - lastUsed` strictly exceeds `maxIdleTime` and retains
all others (for any close outcomes), and the default value of
`maxIdleTime` is 300000 ms. -/
theorem claim4_idle_eviction (st : ManagerState) (hn : keysNodup st.connections)
    (now maxIdleTime : Int) (cr : String → Except String Unit) (tid : String) :
    (∀ e, getEntry st.connections tid = some e →
      getEntry (MultiTenantManager.cleanupInactiveConnections st now maxIdleTime cr).connections
          tid
        = if now - e.lastUsed > maxIdleTime then none else some e) ∧
    (getEntry st.connections tid = none →
      getEntry (MultiTenantManager.cleanupInactiveConnections st now maxIdleTime cr).connections
          tid = none) ∧
    MultiTenantManager.cleanupInactiveConnectionsDefault st now cr
      = MultiTenantManager.cleanupInactiveConnections st now 300000 cr := by
  have hconn : (MultiTenantManager.cleanupInactiveConnections st now maxIdleTime cr).connections
      = ((st.connections.filter
            (fun p => decide (now - p.2.lastUsed > maxIdleTime))).map Prod.fst).foldl
          (fun m tid => delEntry m tid) st.connections := by
    unfold MultiTenantManager.cleanupInactiveConnections
    exact foldl_close_connections _ _ _
  refine ⟨?_, ?_, rfl⟩
  · intro e he
    rw [hconn, getEntry_foldl_delEntry _ _ hn]
    by_cases hidle : now - e.lastUsed > maxIdleTime
    · have hmem : tid ∈ (st.connections.filter
          (fun p => decide (now - p.2.lastUsed > maxIdleTime))).map Prod.fst :=
        (mem_filterKeys_iff _ hn _ tid).mpr ⟨e, he, by simpa using hidle⟩
      simp [hmem, hidle]
    · have hmem : tid ∉ (st.connections.filter
          (fun p => decide (now - p.2.lastUsed > maxIdleTime))).map Prod.fst := by
        intro hmem
        obtain ⟨e', he', hp⟩ := (mem_filterKeys_iff _ hn _ tid).mp hmem
        rw [he] at he'
        obtain rfl : e = e' := by simpa using he'
        exact hidle (by simpa using hp)
      simp [hmem, hidle, he]
  · intro he
    rw [hconn, getEntry_foldl_delEntry _ _ hn]
    by_cases hmem : tid ∈ (st.connections.filter
        (fun p => decide (now - p.2.lastUsed > maxIdleTime))).map Prod.fst
    · simp [hmem]
    · simp [hmem, he]

/-- Witness for C4: with `now = 1000000`, an entry idle for 400000 ms
is evicted by `cleanupInactiveConnections(300000)` and one idle for
100000 ms is retained. -/
theorem claim4_idle_eviction_witness :
    getEntry (MultiTenantManager.cleanupInactiveConnections
        ⟨[("a", ⟨"a", DatabaseType.mongodb, ⟨1, true, true⟩, 500000, 600000, true⟩),
          ("b", ⟨"b", DatabaseType.postgresql, ⟨2, true, true⟩, 800000, 900000, true⟩)],
          MultiTenantManager.defaultConfig, MultiTenantManager.defaultConfigOptions⟩
        1000000 300000 (fun _ => .ok ())).connections "a" = none ∧
    getEntry (MultiTenantManager.cleanupInactiveConnections
        ⟨[("a", ⟨"a", DatabaseType.mongodb, ⟨1, true, true⟩, 500000, 600000, true⟩),
          ("b", ⟨"b", DatabaseType.postgresql, ⟨2, true, true⟩, 800000, 900000, true⟩)],
          MultiTenantManager.defaultConfig, MultiTenantManager.defaultConfigOptions⟩
        1000000 300000 (fun _ => .ok ())).connections "b"
      = some ⟨"b", DatabaseType.postgresql, ⟨2, true, true⟩, 800000, 900000, true⟩ := by
  constructor
  · have h := ((claim4_idle_eviction
      ⟨[("a", ⟨"a", DatabaseType.mongodb, ⟨1, true, true⟩, 500000, 600000, true⟩),
        ("b", ⟨"b", DatabaseType.postgresql, ⟨2, true, true⟩, 800000, 900000, true⟩)],
        MultiTenantManager.defaultConfig, MultiTenantManager.defaultConfigOptions⟩
      (by simp [keysNodup]) 1000000 300000 (fun _ => .ok ()) "a").1
      ⟨"a", DatabaseType.mongodb, ⟨1, true, true⟩, 500000, 600000, true⟩ (by simp [getEntry]))
    simpa using h
  · have h := ((claim4_idle_eviction
      ⟨[("a", ⟨"a", DatabaseType.mongodb, ⟨1, true, true⟩, 500000, 600000, true⟩),
        ("b", ⟨"b", DatabaseType.postgresql, ⟨2, true, true⟩, 800000, 900000, true⟩)],
        MultiTenantManager.defaultConfig, MultiTenantManager.defaultConfigOptions⟩
      (by simp [keysNodup]) 1000000 300000 (fun _ => .ok ()) "b").1
      ⟨"b", DatabaseType.postgresql, ⟨2, true, true⟩, 800000, 900000, true⟩ (by simp [getEntry]))
    simpa using h

/-- C5: closeConnection on an unknown tenant returns the state
unchanged; on a known tenant it removes exactly that entry whatever the
close outcome; and its result never depends on whether the underlying
close call succeeded or threw (no close error propagates). -/
theorem claim5_close_semantics (st : ManagerState) (tid : String) (r : Except String Unit) :
    (getEntry st.connections tid = none → MultiTenantManager.closeConnection st tid r = st) ∧
    (∀ e, getEntry st.connections tid = some e →
      MultiTenantManager.closeConnection st tid r
        = { st with connections := delEntry st.connections tid }) ∧
    MultiTenantManager.closeConnection st tid r
      = MultiTenantManager.closeConnection st tid (.ok ()) := by
  unfold MultiTenantManager.closeConnection
  rcases hg : getEntry st.connections tid with _ | e <;> rcases r with m | u <;> simp

/-- Witness for C5 at a concrete input: a one-entry registry closed
with a failing close call. -/
theorem claim5_close_semantics_witness :
    MultiTenantManager.closeConnection
        ⟨[("t1", ⟨"t1", DatabaseType.mongodb, ⟨1, true, true⟩, 0, 0, true⟩)],
          MultiTenantManager.defaultConfig, MultiTenantManager.defaultConfigOptions⟩
        "t1" (.error "close failed")
      = ⟨[], MultiTenantManager.defaultConfig, MultiTenantManager.defaultConfigOptions⟩ := by
  have h := (claim5_close_semantics
    ⟨[("t1", ⟨"t1", DatabaseType.mongodb, ⟨1, true, true⟩, 0, 0, true⟩)],
      MultiTenantManager.defaultConfig, MultiTenantManager.defaultConfigOptions⟩
    "t1" (.error "close failed")).2.1
    ⟨"t1", DatabaseType.mongodb, ⟨1, true, true⟩, 0, 0, true⟩ rfl
  simpa [delEntry] using h

/-- C6: updateConfig with an update containing only
defaultOptions.maxConnections = 50 sets that field, keeps every other
defaultOptions field, keeps every top-level config field, keeps the
registry, and refreshes the manager's defaultOptions copy accordingly. -/
theorem claim6_config_merge (st : ManagerState) (opts : ConnectionOptions)
    (hopts : st.config.defaultOptions = some opts) :
    (MultiTenantManager.updateConfig st
        ⟨some ⟨some 50, none, none, none, none⟩, none, none, none⟩).config
      = ⟨some ⟨some 50, opts.connectionTimeout, opts.idleTimeout,
            opts.retryAttempts, opts.retryDelay⟩,
          st.config.enableConnectionPooling, st.config.enableLogging, st.config.logLevel⟩ ∧
    (MultiTenantManager.updateConfig st
        ⟨some ⟨some 50, none, none, none, none⟩, none, none, none⟩).connections
      = st.connections ∧
    (MultiTenantManager.updateConfig st
        ⟨some ⟨some 50, none, none, none, none⟩, none, none, none⟩).defaultOptions
      = ⟨some 50, opts.connectionTimeout, opts.idleTimeout,
          opts.retryAttempts, opts.retryDelay⟩ := by
  simp [MultiTenantManager.updateConfig, MultiTenantConfig.spreadMerge,
    ConnectionOptions.merge, ConnectionOptions.spread, hopts]

/-- C7: starting from a freshly constructed manager, after any sequence
of manager operations served by a non-decreasing clock, every registry
entry satisfies `lastUsed >= createdAt` (so the invariant holds at every
point of every run, each point being the end of a prefix run). -/
theorem claim7_timestamp_invariant (cfg : MultiTenantConfig) (c : Int) (ops : List ManagerOp)
    (hw : WellTimedFrom c ops) :
    ∀ p ∈ (runOps (MultiTenantManager.make cfg) ops).connections,
      p.2.createdAt ≤ p.2.lastUsed := by
  refine runOps_inv ops _ c ?_ hw
  intro p hp
  simp [MultiTenantManager.make] at hp

/-- Witness for C7: a concrete two-operation run (a connect that stores
an entry, then a second getConnection that refreshes it), checked on
the entry the run leaves in the registry. -/
theorem claim7_timestamp_invariant_witness :
    WellTimedFrom 0
      [ManagerOp.getConn "t1"
        ⟨"t1", DatabaseType.mongodb,
          ⟨"h", 27017, "u", "p", "d", ConnectionOptions.empty, none, none, none, none⟩, none⟩
        ⟨true, .ok ⟨7, true, true⟩, 1, 2, 3⟩,
       ManagerOp.getConn "t1"
        ⟨"t1", DatabaseType.mongodb,
          ⟨"h", 27017, "u", "p", "d", ConnectionOptions.empty, none, none, none, none⟩, none⟩
        ⟨true, .ok ⟨8, true, true⟩, 4, 5, 6⟩] ∧
    ("t1", (⟨"t1", DatabaseType.mongodb, ⟨7, true, true⟩, 2, 4, true⟩ : ConnectionInfo))
      ∈ (runOps (MultiTenantManager.make ⟨none, none, none, none⟩)
        [ManagerOp.getConn "t1"
          ⟨"t1", DatabaseType.mongodb,
            ⟨"h", 27017, "u", "p", "d", ConnectionOptions.empty, none, none, none, none⟩, none⟩
          ⟨true, .ok ⟨7, true, true⟩, 1, 2, 3⟩,
         ManagerOp.getConn "t1"
          ⟨"t1", DatabaseType.mongodb,
            ⟨"h", 27017, "u", "p", "d", ConnectionOptions.empty, none, none, none, none⟩, none⟩
          ⟨true, .ok ⟨8, true, true⟩, 4, 5, 6⟩]).connections ∧
    ((⟨"t1", DatabaseType.mongodb, ⟨7, true, true⟩, 2, 4, true⟩ : ConnectionInfo).createdAt
      ≤ (⟨"t1", DatabaseType.mongodb, ⟨7, true, true⟩, 2, 4, true⟩ :
          ConnectionInfo).lastUsed) := by
  have hw : WellTimedFrom 0
      [ManagerOp.getConn "t1"
        ⟨"t1", DatabaseType.mongodb,
          ⟨"h", 27017, "u", "p", "d", ConnectionOptions.empty, none, none, none, none⟩, none⟩
        ⟨true, .ok ⟨7, true, true⟩, 1, 2, 3⟩,
       ManagerOp.getConn "t1"
        ⟨"t1", DatabaseType.mongodb,
          ⟨"h", 27017, "u", "p", "d", ConnectionOptions.empty, none, none, none, none⟩, none⟩
        ⟨true, .ok ⟨8, true, true⟩, 4, 5, 6⟩] := by
    simp [WellTimedFrom, OpWellTimed, opClockEnd]
  refine ⟨hw, by decide, ?_⟩
  exact claim7_timestamp_invariant ⟨none, none, none, none⟩ 0
    [ManagerOp.getConn "t1"
      ⟨"t1", DatabaseType.mongodb,
        ⟨"h", 27017, "u", "p", "d", ConnectionOptions.empty, none, none, none, none⟩, none⟩
      ⟨true, .ok ⟨7, true, true⟩, 1, 2, 3⟩,
     ManagerOp.getConn "t1"
      ⟨"t1", DatabaseType.mongodb,
        ⟨"h", 27017, "u", "p", "d", ConnectionOptions.empty, none, none, none, none⟩, none⟩
      ⟨true, .ok ⟨8, true, true⟩, 4, 5, 6⟩] hw
    ("t1", (⟨"t1", DatabaseType.mongodb, ⟨7, true, true⟩, 2, 4, true⟩ : ConnectionInfo))
    (by decide)

/-- Witness for C6: a freshly constructed manager, where e.g.
idleTimeout stays at its default 30000 while maxConnections becomes 50. -/
theorem claim6_config_merge_witness :
    (MultiTenantManager.updateConfig (MultiTenantManager.make ⟨none, none, none, none⟩)
        ⟨some ⟨some 50, none, none, none, none⟩, none, none, none⟩).config
      = ⟨some ⟨some 50, some 5000, some 30000, some 3, some 1000⟩,
          some true, some true, some .info⟩ := by
  have h := (claim6_config_merge (MultiTenantManager.make ⟨none, none, none, none⟩)
    MultiTenantManager.defaultConfigOptions (by rfl)).1
  simpa [MultiTenantManager.defaultConfigOptions, MultiTenantManager.defaultConfig,
    MultiTenantManager.make, ConnectionOptions.merge, ConnectionOptions.spread,
    MultiTenantConfig.spreadMerge] using h

theorem isPrefixOf_append_self (l t : List Char) : l.isPrefixOf (l ++ t) = true := by
  induction l with
  | nil => simp
  | cons a l ih => simp [List.isPrefixOf_cons₂, ih]

theorem isPrefixOf_false_of_head_ne (a b : Char) (l₁ l₂ : List Char)
    (h : (a == b) = false) : List.isPrefixOf (a :: l₁) (b :: l₂) = false := by
  simp [List.isPrefixOf_cons₂, h]

theorem strStartsWith_shape_true (s p : String) (r : List Char) (h : s.data = p.data ++ r) :
    strStartsWith s p = true := by
  unfold strStartsWith
  rw [h]
  exact isPrefixOf_append_self _ _

theorem strStartsWith_shape_false (s p q : String) (r tp tq : List Char) (a b : Char)
    (h : s.data = q.data ++ r) (hq : q.data = b :: tq) (hp : p.data = a :: tp)
    (hab : (a == b) = false) : strStartsWith s p = false := by
  unfold strStartsWith
  rw [h, hq, hp, List.cons_append]
  exact isPrefixOf_false_of_head_ne _ _ _ _ hab

theorem data_shape_of_ite (p : String) (cond : Prop) [Decidable cond] (s t : String)
    (hs : ∃ r, s.data = p.data ++ r) (ht : ∃ r, t.data = p.data ++ r) :
    ∃ r, (if cond then s else t).data = p.data ++ r := by
  by_cases h : cond <;> simp [h, hs, ht]

theorem mongo_build_shape (enc : String → String) (c : DatabaseCredentials) :
    ∃ r, (MongoDBConnector.buildConnectionString enc c).data = "mongodb://".data ++ r := by
  simp only [MongoDBConnector.buildConnectionString]
  apply data_shape_of_ite <;>
  · simp only [String.data_append, List.append_assoc]
    exact ⟨_, rfl⟩

theorem pg_build_shape (enc : String → String) (c : DatabaseCredentials) :
    ∃ r, (PostgreSQLConnector.buildConnectionString enc c).data
      = "postgresql://".data ++ r := by
  simp only [PostgreSQLConnector.buildConnectionString]
  apply data_shape_of_ite <;>
  · simp only [String.data_append, List.append_assoc]
    exact ⟨_, rfl⟩

theorem validateLoop_cases (configs : List TenantConfig) (seen : List String)
    (hv : ∀ cfg ∈ configs, ConnectionValidator.validateTenantConfig cfg = .ok true) :
    (ConnectionValidator.validateLoop seen configs = .ok true
      ∧ (configs.map (fun cfg => cfg.tenantId)).Nodup
      ∧ ∀ i ∈ configs.map (fun cfg => cfg.tenantId), i ∉ seen)
    ∨ (∃ d, ConnectionValidator.validateLoop seen configs
          = .error ("Duplicate tenant ID found: " ++ d)
        ∧ d ∈ configs.map (fun cfg => cfg.tenantId)
        ∧ (d ∈ seen ∨ 2 ≤ (configs.map (fun cfg => cfg.tenantId)).count d)) := by
  induction configs generalizing seen with
  | nil => exact Or.inl ⟨rfl, by simp, by simp⟩
  | cons c rest ih =>
    have hvc := hv c (List.mem_cons_self _ _)
    have hvrest : ∀ cfg ∈ rest, ConnectionValidator.validateTenantConfig cfg = .ok true :=
      fun cfg hc => hv cfg (List.mem_cons_of_mem _ hc)
    by_cases hseen : c.tenantId ∈ seen
    · refine Or.inr ⟨c.tenantId, ?_, by simp, Or.inl hseen⟩
      have hc : seen.contains c.tenantId = true := List.elem_iff.mpr hseen
      unfold ConnectionValidator.validateLoop
      rw [hvc, if_pos hc]
    · have hc : ¬ seen.contains c.tenantId = true :=
        fun hb => absurd (List.elem_iff.mp hb) hseen
      rcases ih (c.tenantId :: seen) hvrest with ⟨hok, hnd, hdisj⟩ | ⟨d, herr, hdm, hcase⟩
      · refine Or.inl ⟨?_, ?_, ?_⟩
        · unfold ConnectionValidator.validateLoop
          rw [hvc, if_neg hc]
          exact hok
        · exact List.nodup_cons.mpr
            ⟨fun hmem => hdisj _ hmem (List.mem_cons_self _ _), hnd⟩
        · intro i hi
          simp only [List.map_cons, List.mem_cons] at hi
          rcases hi with rfl | hi'
          · exact hseen
          · exact fun hmem => hdisj i hi' (List.mem_cons_of_mem _ hmem)
      · refine Or.inr ⟨d, ?_, ?_, ?_⟩
        · unfold ConnectionValidator.validateLoop
          rw [hvc, if_neg hc]
          exact herr
        · simp only [List.map_cons, List.mem_cons]
          exact Or.inr hdm
        · rcases hcase with hd | hcount
          · rcases List.mem_cons.mp hd with rfl | hd'
            · right
              have h1 : 0 < (rest.map (fun cfg => cfg.tenantId)).count c.tenantId :=
                List.count_pos_iff.mpr hdm
              simp only [List.map_cons, List.count_cons_self]
              omega
            · exact Or.inl hd'
          · right
            simp only [List.map_cons, List.count_cons]
            split <;> omega

/-- C9: on a batch of individually valid tenant configs, the batch
validator succeeds exactly when the tenant ids are pairwise distinct; a
batch containing a repeated tenant id fails with a validation error
whose message names that duplicated id. -/
theorem claim9_duplicate_validation (configs : List TenantConfig)
    (hv : ∀ cfg ∈ configs, ConnectionValidator.validateTenantConfig cfg = .ok true) :
    ((configs.map (fun cfg => cfg.tenantId)).Nodup →
      ConnectionValidator.validateMultipleTenantConfigs configs = .ok true) ∧
    (¬ (configs.map (fun cfg => cfg.tenantId)).Nodup →
      ∃ d, 2 ≤ (configs.map (fun cfg => cfg.tenantId)).count d ∧
        ConnectionValidator.validateMultipleTenantConfigs configs
          = .error ("Invalid tenant configurations: Duplicate tenant ID found: " ++ d)) := by
  rcases validateLoop_cases configs [] hv with ⟨hok, hnd, _⟩ | ⟨d, herr, hdm, hcase⟩
  · refine ⟨fun _ => ?_, fun hnodup => absurd hnd hnodup⟩
    simp [ConnectionValidator.validateMultipleTenantConfigs, hok]
  · have hcount : 2 ≤ (configs.map (fun cfg => cfg.tenantId)).count d := by
      rcases hcase with hd | hcount
      · simp at hd
      · exact hcount
    refine ⟨fun hnodup => ?_, fun _ => ⟨d, hcount, ?_⟩⟩
    · have := List.nodup_iff_count_le_one.mp hnodup d
      omega
    · unfold ConnectionValidator.validateMultipleTenantConfigs
      rw [herr]
      show Except.error ("Invalid tenant configurations: "
          ++ ("Duplicate tenant ID found: " ++ d)) = _
      rw [← String.append_assoc]
      rw [show ("Invalid tenant configurations: " ++ "Duplicate tenant ID found: " : String)
          = "Invalid tenant configurations: Duplicate tenant ID found: " from by decide]

/-- Witness for C9: two individually valid configs sharing tenant id
produce the duplicate error naming it; with distinct ids the batch
validates. -/
theorem claim9_duplicate_validation_witness :
    ConnectionValidator.validateMultipleTenantConfigs
        [⟨"t1", DatabaseType.mongodb,
          ⟨"h", 27017, "u", "p", "d", ConnectionOptions.empty, none, none, none, none⟩, none⟩,
         ⟨"t2", DatabaseType.postgresql,
          ⟨"h", 5432, "u", "p", "d", ConnectionOptions.empty, none, none, none, none⟩, none⟩]
      = .ok true ∧
    ConnectionValidator.validateMultipleTenantConfigs
        [⟨"t1", DatabaseType.mongodb,
          ⟨"h", 27017, "u", "p", "d", ConnectionOptions.empty, none, none, none, none⟩, none⟩,
         ⟨"t1", DatabaseType.postgresql,
          ⟨"h", 5432, "u", "p", "d", ConnectionOptions.empty, none, none, none, none⟩, none⟩]
      = .error "Invalid tenant configurations: Duplicate tenant ID found: t1" := by
  constructor
  · exact (claim9_duplicate_validation _
      (by intro cfg hcfg
          rcases List.mem_cons.mp hcfg with rfl | hcfg'
          · rfl
          · rcases List.mem_cons.mp hcfg' with rfl | hcfg''
            · rfl
            · simp at hcfg'')).1 (by simp)
  · rfl

/-- C8: for both connector variants, ping returns false at once when no
handle exists and never performs a connect attempt, while
testConnection with no handle performs exactly one connect attempt and
then issues the backend-specific probe (admin ping guarded by the `db`
property for MongoDB, the trivial `SELECT 1` query for PostgreSQL);
every failure — a thrown connect or a thrown probe — yields `false`
rather than an error. -/
theorem claim8_probe_semantics (stM stP : ConnectorState) (dr : Except String Handle)
    (pingOk queryOk : Bool) (h : Handle) :
    (stM.connection = none → MongoDBConnector.ping stM pingOk = (false, 0)) ∧
    (stP.connection = none → PostgreSQLConnector.ping stP queryOk = (false, 0)) ∧
    (MongoDBConnector.ping stM pingOk).2 = 0 ∧
    (PostgreSQLConnector.ping stP queryOk).2 = 0 ∧
    (stM.connection = none →
      (MongoDBConnector.testConnection stM dr pingOk).2.2 = 1 ∧
      (dr = .ok h →
        (MongoDBConnector.testConnection stM dr pingOk).1 = (h.hasDb && pingOk)) ∧
      (∀ m, dr = .error m → (MongoDBConnector.testConnection stM dr pingOk).1 = false)) ∧
    (stP.connection = none →
      (PostgreSQLConnector.testConnection stP dr queryOk).2.2 = 1 ∧
      (dr = .ok h → (PostgreSQLConnector.testConnection stP dr queryOk).1 = queryOk) ∧
      (∀ m, dr = .error m →
        (PostgreSQLConnector.testConnection stP dr queryOk).1 = false)) := by
  obtain ⟨cM, bM⟩ := stM
  obtain ⟨cP, bP⟩ := stP
  refine ⟨?_, ?_, ?_, ?_, ?_, ?_⟩
  · rintro rfl
    rfl
  · rintro rfl
    rfl
  · rcases cM with _ | hM <;> rfl
  · rcases cP with _ | hP <;> rfl
  · rintro rfl
    rcases dr with m | hh <;> rcases bM <;>
      simp [MongoDBConnector.testConnection, MongoDBConnector.connect] <;>
      (rintro rfl; rfl)
  · rintro rfl
    rcases dr with m | hh <;> rcases bP <;>
      simp [PostgreSQLConnector.testConnection, PostgreSQLConnector.connect]

/-- Witness for C8: both connectors with no stored handle, a driver
connect that returns handle 5, and succeeding probes. -/
theorem claim8_probe_semantics_witness :
    MongoDBConnector.ping ⟨none, false⟩ true = (false, 0) ∧
    (MongoDBConnector.testConnection ⟨none, false⟩ (.ok ⟨5, true, true⟩) true).2.2 = 1 ∧
    (MongoDBConnector.testConnection ⟨none, false⟩ (.ok ⟨5, true, true⟩) true).1 = true ∧
    (PostgreSQLConnector.testConnection ⟨none, false⟩ (.error "refused") true).1 = false := by
  have h := claim8_probe_semantics ⟨none, false⟩ ⟨none, false⟩ (.ok ⟨5, true, true⟩) true true
    ⟨5, true, true⟩
  have h' := claim8_probe_semantics ⟨none, false⟩ ⟨none, false⟩ (.error "refused") true true
    ⟨5, true, true⟩
  exact ⟨h.1 rfl, (h.2.2.2.2.1 rfl).1, (h.2.2.2.2.1 rfl).2.1 rfl,
    (h'.2.2.2.2.2 rfl).2.2 "refused" rfl⟩

/-- C10: every connection string built by the MongoDB connector starts
with the mongodb scheme and every one built by the PostgreSQL connector
starts with the postgresql scheme, so isValidConnectionString accepts
each connector's own string paired with its own backend kind and
rejects it paired with the other kind, for any credentials and any
URL-escaping function. -/
theorem claim10_connection_string_roundtrip (enc : String → String)
    (c : DatabaseCredentials) :
    ConnectionValidator.isValidConnectionString
        (MongoDBConnector.buildConnectionString enc c) DatabaseType.mongodb = true ∧
    ConnectionValidator.isValidConnectionString
        (MongoDBConnector.buildConnectionString enc c) DatabaseType.postgresql = false ∧
    ConnectionValidator.isValidConnectionString
        (PostgreSQLConnector.buildConnectionString enc c) DatabaseType.postgresql = true ∧
    ConnectionValidator.isValidConnectionString
        (PostgreSQLConnector.buildConnectionString enc c) DatabaseType.mongodb = false := by
  obtain ⟨rm, hm⟩ := mongo_build_shape enc c
  obtain ⟨rp, hp⟩ := pg_build_shape enc c
  have hmne : ¬ MongoDBConnector.buildConnectionString enc c = "" := by
    intro h0
    have hd := congrArg String.data h0
    rw [hm, show "mongodb://".data = 'm' :: "ongodb://".data from rfl,
      List.cons_append] at hd
    exact List.cons_ne_nil _ _ hd
  have hpne : ¬ PostgreSQLConnector.buildConnectionString enc c = "" := by
    intro h0
    have hd := congrArg String.data h0
    rw [hp, show "postgresql://".data = 'p' :: "ostgresql://".data from rfl,
      List.cons_append] at hd
    exact List.cons_ne_nil _ _ hd
  have h1 : strStartsWith (MongoDBConnector.buildConnectionString enc c) "mongodb://" = true :=
    strStartsWith_shape_true _ _ rm hm
  have h2 : strStartsWith (MongoDBConnector.buildConnectionString enc c) "postgresql://"
      = false :=
    strStartsWith_shape_false _ _ _ rm _ _ 'p' 'm' hm rfl rfl (by decide)
  have h3 : strStartsWith (MongoDBConnector.buildConnectionString enc c) "postgres://"
      = false :=
    strStartsWith_shape_false _ _ _ rm _ _ 'p' 'm' hm rfl rfl (by decide)
  have h4 : strStartsWith (PostgreSQLConnector.buildConnectionString enc c) "postgresql://"
      = true :=
    strStartsWith_shape_true _ _ rp hp
  have h5 : strStartsWith (PostgreSQLConnector.buildConnectionString enc c) "mongodb://"
      = false :=
    strStartsWith_shape_false _ _ _ rp _ _ 'm' 'p' hp rfl rfl (by decide)
  have h6 : strStartsWith (PostgreSQLConnector.buildConnectionString enc c) "mongodb+srv://"
      = false :=
    strStartsWith_shape_false _ _ _ rp _ _ 'm' 'p' hp rfl rfl (by decide)
  refine ⟨?_, ?_, ?_, ?_⟩ <;>
    simp [ConnectionValidator.isValidConnectionString, hmne, hpne, h1, h2, h3, h4, h5, h6]

end MultiTenancy
